import Mathlib

/-!
Shallow embedding of the Bullhorn MCP session/client core
(`src/bullhorn_mcp/auth.py` and `src/bullhorn_mcp/client.py`).

Network effects are modelled by explicit oracles: the authorize endpoint is a
stream of scripted HTTP responses (`Nat → AuthorizeResp`, the i-th GET of the
redirect chain), and the token-exchange, token-refresh, REST-login and
data-plane endpoints each get one scripted response.  Timestamps
(`time.time()`) are modelled as integers; every function takes the current
time `now` explicitly.  Mutation of the `BullhornAuth` object is modelled by
explicit state passing over `AuthState`.  Raised exceptions are modelled as
error results carrying the formatted message.
-/

namespace BullhornMCP

/-- Substring containment over character lists (models Python's
`needle in haystack` on strings). -/
def containsSub (needle hay : List Char) : Bool :=
  hay.tails.any (fun t => needle.isPrefixOf t)

/-- Models `"bullhornstaffing.com" in parsed.netloc` (auth.py lines 100/111). -/
def vendorHost (netloc : String) : Bool :=
  containsSub "bullhornstaffing.com".toList netloc.toList

/-- Result of `urlparse` + `parse_qs` applied to a `Location` header value:
the scheme, the network location (host), and the parsed query string.
`parse_qs` yields a dict of value lists and the code reads index `[0]`, so the
query is modelled as an association list with first-match lookup. -/
structure ParsedUrl where
  scheme : String
  netloc : String
  query : List (String × String)
deriving Repr, DecidableEq

/-- `key in query_params` for the parsed query string. -/
def qpHas (q : List (String × String)) (k : String) : Bool :=
  q.any (fun p => p.1 == k)

/-- `query_params.get(key, [dflt])[0]` / `query_params[key][0]`. -/
def qpFirst (q : List (String × String)) (k dflt : String) : String :=
  match q.find? (fun p => p.1 == k) with
  | some p => p.2
  | none => dflt

/-- One HTTP response observed by the authorize-redirect loop: the status
code, and the `Location` header already parsed (`none` models a missing or
empty `location` header, which the code treats alike). -/
structure AuthorizeResp where
  status : Nat
  location : Option ParsedUrl
deriving Repr, DecidableEq

/-- `response.status_code in (301, 302, 303, 307, 308)` (auth.py line 87). -/
def isRedirect (s : Nat) : Bool :=
  s == 301 || s == 302 || s == 303 || s == 307 || s == 308

/-- Terminal outcome of `_get_auth_code`:
* `gotCode c u` — the code `c` was returned; `u = some origin` iff the code-
  carrying redirect also caused `self._regional_auth_url = origin` to run
  (auth.py lines 98-102), `u = none` iff that assignment did not run;
* `oauthError e d` — `AuthenticationError("OAuth error: e - d")` was raised;
* `failStatus s` — the fall-through
  `AuthenticationError("Failed to get auth code. Status: s")` was raised. -/
inductive AuthCodeOutcome where
  | gotCode (code : String) (regionalUpdate : Option String)
  | oauthError (error : String) (desc : String)
  | failStatus (status : Nat)
deriving Repr, DecidableEq

/-- The regional-URL assignment guard and value on a code-carrying redirect
(auth.py lines 100-101): run only if `parsed.netloc` is truthy and contains
the vendor domain. -/
def regionalUpdate (p : ParsedUrl) : Option String :=
  if p.netloc ≠ "" && vendorHost p.netloc then
    some (p.scheme ++ "://" ++ p.netloc)
  else
    none

/-- The body of the `for _ in range(max_redirects)` loop of `_get_auth_code`
(auth.py lines 84-115).  `net i` is the response to the (i+1)-th GET issued in
this chain; `fuel` is the remaining iteration budget; the second component of
the result is the total number of GET requests issued (the requests consume
indices `0, 1, …`).  The `fuel = 0` case is the fall-through after the loop
(auth.py line 117), which names the status of the last response received. -/
def authCodeGo (net : Nat → AuthorizeResp) : Nat → Nat → AuthCodeOutcome × Nat
  | 0, i => (.failStatus (net (i - 1)).status, i)
  | fuel + 1, i =>
    let r := net i
    if !isRedirect r.status then
      (.failStatus r.status, i + 1)
    else
      match r.location with
      | none => (.failStatus r.status, i + 1)
      | some parsed =>
        if qpHas parsed.query "code" then
          (.gotCode (qpFirst parsed.query "code" "") (regionalUpdate parsed), i + 1)
        else if qpHas parsed.query "error" then
          (.oauthError (qpFirst parsed.query "error" "unknown")
            (qpFirst parsed.query "error_description" ""), i + 1)
        else if vendorHost parsed.netloc then
          authCodeGo net fuel (i + 1)
        else
          (.failStatus r.status, i + 1)

/-- `_get_auth_code` (auth.py lines 69-119): run the loop with
`max_redirects = 5` starting at the configured authorize URL. -/
def getAuthCode (net : Nat → AuthorizeResp) : AuthCodeOutcome × Nat :=
  authCodeGo net 5 0

/-- `BullhornSession` (auth.py lines 11-17). -/
structure BullhornSession where
  bh_rest_token : String
  rest_url : String
  expires_at : Int
deriving Repr, DecidableEq

/-- The mutable fields of `BullhornAuth` set in `__init__`
(auth.py lines 31-37); the immutable `config` is not part of the state. -/
structure AuthState where
  session? : Option BullhornSession
  access_token? : Option String
  refresh_token? : Option String
  token_expires_at : Int
  regional_auth_url? : Option String
deriving Repr, DecidableEq

/-- `BullhornAuth.__init__` (auth.py lines 31-37): every optional field starts
out `None` and the token expiry starts at 0. -/
def initAuthState : AuthState :=
  { session? := none
    access_token? := none
    refresh_token? := none
    token_expires_at := 0
    regional_auth_url? := none }

/-- JSON body of a response from the `/oauth/token` endpoint, restricted to
the fields the code reads.  `access_token = none` models a body missing that
key (`data["access_token"]` then raises `KeyError`). -/
structure TokenBody where
  access_token : Option String
  refresh_token : Option String
  expires_in : Option Int
deriving Repr, DecidableEq

/-- An HTTP response carrying a JSON body of type `β`. -/
structure HttpResp (β : Type) where
  status : Nat
  body : β
deriving Repr, DecidableEq

/-- `_exchange_auth_code` (auth.py lines 121-146) given the scripted response
to its POST.  On a non-200 status it raises; on success it stores the access
token, replaces the refresh token by `data.get("refresh_token")` (possibly
`None`), and sets the expiry to `now + data.get("expires_in", 600)`. -/
def exchangeAuthCode (st : AuthState) (now : Int) (resp : HttpResp TokenBody) :
    Except String AuthState :=
  if resp.status ≠ 200 then
    .error ("Token exchange failed: " ++ toString resp.status)
  else
    match resp.body.access_token with
    | none => .error "KeyError: access_token"
    | some tok =>
      .ok { st with
        access_token? := some tok
        refresh_token? := resp.body.refresh_token
        token_expires_at := now + resp.body.expires_in.getD 600 }

/-- `_refresh_access_token` (auth.py lines 148-175) given the scripted
response to its POST.  Raises if no refresh token is held or the status is not
200; on success it stores the access token, keeps the old refresh token when
the body omits a new one, and sets the expiry to `now + expires_in` (default
600). -/
def refreshAccessToken (st : AuthState) (now : Int) (resp : HttpResp TokenBody) :
    Except String AuthState :=
  match st.refresh_token? with
  | none => .error "No refresh token available"
  | some oldRt =>
    if resp.status ≠ 200 then
      .error ("Token refresh failed: " ++ toString resp.status)
    else
      match resp.body.access_token with
      | none => .error "KeyError: access_token"
      | some tok =>
        .ok { st with
          access_token? := some tok
          refresh_token? := some (resp.body.refresh_token.getD oldRt)
          token_expires_at := now + resp.body.expires_in.getD 600 }

/-- JSON body of a response from `/rest-services/login`, restricted to the
two fields the code reads plus one ignored extra field standing for anything
else the server may send (in particular any expiry information). -/
structure LoginBody where
  BhRestToken : Option String
  restUrl : Option String
  extra : Option Int
deriving Repr, DecidableEq

/-- `_rest_login` (auth.py lines 177-206) given the scripted response to its
GET.  Raises if no access token is held, if the status is not 200, or if the
body lacks `BhRestToken` or `restUrl`; otherwise it installs a new session
whose expiry is `now + 600` regardless of the body's contents. -/
def restLogin (st : AuthState) (now : Int) (resp : HttpResp LoginBody) :
    Except String AuthState :=
  match st.access_token? with
  | none => .error "No access token available"
  | some _ =>
    if resp.status ≠ 200 then
      .error ("REST login failed: " ++ toString resp.status)
    else
      match resp.body.BhRestToken, resp.body.restUrl with
      | some bh, some ru =>
        .ok { st with session? := some { bh_rest_token := bh, rest_url := ru, expires_at := now + 600 } }
      | _, _ => .error "Invalid login response"

/-- The network stages an auth-side operation can invoke, in order of
invocation (used to record which flows ran). -/
inductive AuthEvent where
  | refreshAttempt
  | authorizeGet
  | tokenExchange
  | restLogin
deriving Repr, DecidableEq

/-- The scripted network world for one renewal: the authorize redirect chain,
and one response each for the token-exchange, token-refresh and REST-login
requests. -/
structure NetWorld where
  authorizeNet : Nat → AuthorizeResp
  exchangeResp : HttpResp TokenBody
  refreshResp : HttpResp TokenBody
  loginResp : HttpResp LoginBody

/-- Result of an auth-side operation: the state after all mutations that ran,
the raised `AuthenticationError` message if any, and the network stages that
were invoked.  An empty event list means no network request was issued. -/
structure AuthOut where
  state : AuthState
  error : Option String
  events : List AuthEvent
deriving Repr

/-- `_full_auth` (auth.py lines 61-67): authorization-code retrieval followed
by the code exchange.  The regional-URL assignment performed inside
`_get_auth_code` is applied to the state even when the subsequent exchange
fails (the Python mutation has already happened by then). -/
def fullAuth (st : AuthState) (now : Int) (w : NetWorld) : AuthOut :=
  match (getAuthCode w.authorizeNet).1 with
  | .gotCode _code upd =>
    let st1 := { st with regional_auth_url? := upd.orElse (fun _ => st.regional_auth_url?) }
    match exchangeAuthCode st1 now w.exchangeResp with
    | .ok st2 => { state := st2, error := none, events := [.authorizeGet, .tokenExchange] }
    | .error e => { state := st1, error := some e, events := [.authorizeGet, .tokenExchange] }
  | .oauthError e d =>
    { state := st, error := some ("OAuth error: " ++ e ++ " - " ++ d), events := [.authorizeGet] }
  | .failStatus s =>
    { state := st, error := some ("Failed to get auth code. Status: " ++ toString s),
      events := [.authorizeGet] }

/-- The tail of `_refresh_session` (auth.py line 59): after the token phase,
`self._rest_login()` runs — unless the token phase already raised, in which
case the exception propagates and login is never reached. -/
def loginPhase (o : AuthOut) (now : Int) (resp : HttpResp LoginBody) : AuthOut :=
  match o.error with
  | some _ => o
  | none =>
    match restLogin o.state now resp with
    | .ok st2 => { state := st2, error := none, events := o.events ++ [.restLogin] }
    | .error e => { state := o.state, error := some e, events := o.events ++ [.restLogin] }

/-- `_refresh_session` (auth.py lines 46-59): try the refresh flow only when a
refresh token is held and the access token has more than 60 seconds left; a
refresh failure falls back to `_full_auth` (the refresh error is swallowed and
the state is unchanged by the failed refresh); otherwise go straight to
`_full_auth`; then always `_rest_login`. -/
def refreshSession (st : AuthState) (now : Int) (w : NetWorld) : AuthOut :=
  let tokenPhase : AuthOut :=
    if st.refresh_token?.isSome && decide (now < st.token_expires_at - 60) then
      match refreshAccessToken st now w.refreshResp with
      | .ok st1 => { state := st1, error := none, events := [.refreshAttempt] }
      | .error _ =>
        let f := fullAuth st now w
        { state := f.state, error := f.error, events := .refreshAttempt :: f.events }
    else
      fullAuth st now w
  loginPhase tokenPhase now w.loginResp

/-- The staleness test of the `session` property (auth.py line 42):
`self._session is None or time.time() >= self._session.expires_at - 60`. -/
def sessionStale (st : AuthState) (now : Int) : Bool :=
  match st.session? with
  | none => true
  | some s => decide (now ≥ s.expires_at - 60)

/-- The `session` property (auth.py lines 39-44) together with the number of
times it invoked `_refresh_session`: renew when stale, otherwise return
untouched state with no network activity.  The session handed to the caller
is `.1.state.session?`. -/
def getSessionR (st : AuthState) (now : Int) (w : NetWorld) : AuthOut × Nat :=
  if sessionStale st now then (refreshSession st now w, 1)
  else ({ state := st, error := none, events := [] }, 0)

/-- The `session` property, result only. -/
def getSession (st : AuthState) (now : Int) (w : NetWorld) : AuthOut :=
  (getSessionR st now w).1

/-- A query-string parameter value as placed in the `params` dict of a
client request (Python mixes strings and ints there). -/
inductive ParamVal where
  | str (s : String)
  | int (n : Int)
deriving Repr, DecidableEq

/-- One data-plane HTTP request as issued by `BullhornClient._request`
(client.py lines 34-42): method, full URL, query parameters, and the
`BhRestToken` credential header. -/
structure DataRequest where
  method : String
  url : String
  params : List (String × ParamVal)
  bhRestToken : String
deriving Repr, DecidableEq

/-- Outcome of `BullhornClient._request`:
* `ok body` — 200, the parsed JSON body is returned;
* `apiError s body` — `BullhornAPIError` raised with the final status/body;
* `authError msg` — an `AuthenticationError` from the session manager
  propagated out of `_request`. -/
inductive ReqResult where
  | ok (body : String)
  | apiError (status : Nat) (body : String)
  | authError (msg : String)
deriving Repr, DecidableEq

/-- Result of `_request`: the outcome, the auth state afterwards, the
data-plane requests issued in order, and the number of `_refresh_session`
invocations that occurred. -/
structure ClientOut where
  result : ReqResult
  state : AuthState
  requests : List DataRequest
  renewals : Nat
deriving Repr

/-- `BullhornClient._request` (client.py lines 25-49).  `dataNet k` is the
scripted response (status and raw JSON body) to the (k+1)-th data-plane
request of this call.  The staleness-checked `session` property supplies the
session; on a 401 the code forces `_refresh_session()`, re-reads the property,
rebuilds only the headers (the URL is not rebuilt) and retries exactly once;
any response other than 200 after that raises `BullhornAPIError`.
The two `state.session? = none` fallbacks are unreachable (a property read
that does not raise always leaves a session installed). -/
def clientRequest (st : AuthState) (now : Int) (w : NetWorld)
    (dataNet : Nat → HttpResp String)
    (method endpoint : String) (params : List (String × ParamVal)) : ClientOut :=
  let g := getSessionR st now w
  match g.1.error with
  | some e => { result := .authError e, state := g.1.state, requests := [], renewals := g.2 }
  | none =>
    match g.1.state.session? with
    | none => { result := .authError "unreachable", state := g.1.state, requests := [], renewals := g.2 }
    | some sess =>
      let url := sess.rest_url ++ endpoint
      let req1 : DataRequest :=
        { method := method, url := url, params := params, bhRestToken := sess.bh_rest_token }
      let resp1 := dataNet 0
      if resp1.status == 401 then
        let r := refreshSession g.1.state now w
        match r.error with
        | some e =>
          { result := .authError e, state := r.state, requests := [req1], renewals := g.2 + 1 }
        | none =>
          let g2 := getSessionR r.state now w
          match g2.1.error with
          | some e =>
            { result := .authError e, state := g2.1.state, requests := [req1],
              renewals := g.2 + 1 + g2.2 }
          | none =>
            match g2.1.state.session? with
            | none =>
              { result := .authError "unreachable", state := g2.1.state, requests := [req1],
                renewals := g.2 + 1 + g2.2 }
            | some sess2 =>
              let req2 : DataRequest :=
                { method := method, url := url, params := params,
                  bhRestToken := sess2.bh_rest_token }
              let resp2 := dataNet 1
              if resp2.status ≠ 200 then
                { result := .apiError resp2.status resp2.body, state := g2.1.state,
                  requests := [req1, req2], renewals := g.2 + 1 + g2.2 }
              else
                { result := .ok resp2.body, state := g2.1.state,
                  requests := [req1, req2], renewals := g.2 + 1 + g2.2 }
      else if resp1.status ≠ 200 then
        { result := .apiError resp1.status resp1.body, state := g.1.state,
          requests := [req1], renewals := g.2 }
      else
        { result := .ok resp1.body, state := g.1.state, requests := [req1], renewals := g.2 }

/-- `DEFAULT_FIELDS` (client.py lines 10-16), as the partial map the dict is:
`some` exactly on the five curated entity types, each list verbatim. -/
def DEFAULT_FIELDS (e : String) : Option String :=
  if e = "JobOrder" then
    some "id,title,status,employmentType,dateAdded,startDate,salary,clientCorporation,owner,description,numOpenings,isOpen"
  else if e = "Candidate" then
    some "id,firstName,lastName,email,phone,status,dateAdded,occupation,skillSet,owner"
  else if e = "Placement" then
    some "id,candidate,jobOrder,status,dateBegin,dateEnd,salary,payRate"
  else if e = "ClientCorporation" then
    some "id,name,status,phone,address"
  else if e = "ClientContact" then
    some "id,firstName,lastName,email,phone,clientCorporation"
  else
    none

/-- The `params` dict built by `search` (client.py lines 73-84):
field defaulting via `DEFAULT_FIELDS.get(entity, "id")`, `count` capped by
`min(count, 500)`, and `sort` appended only when truthy (non-empty). -/
def searchParams (entity query : String) (fields : Option String)
    (count start : Int) (sort : Option String) : List (String × ParamVal) :=
  let fields := fields.getD ((DEFAULT_FIELDS entity).getD "id")
  let base := [("query", ParamVal.str query), ("fields", ParamVal.str fields),
    ("count", ParamVal.int (min count 500)), ("start", ParamVal.int start)]
  match sort with
  | some s => if s ≠ "" then base ++ [("sort", ParamVal.str s)] else base
  | none => base

/-- `BullhornClient.search` (client.py lines 51-87) up to and including the
delegated `_request`; the final `result.get("data", [])` extraction operates
on the opaque body and is not modelled. -/
def search (st : AuthState) (now : Int) (w : NetWorld) (dataNet : Nat → HttpResp String)
    (entity query : String) (fields : Option String)
    (count start : Int) (sort : Option String) : ClientOut :=
  clientRequest st now w dataNet "GET" ("/search/" ++ entity)
    (searchParams entity query fields count start sort)

/-- The `params` dict built by `query` (client.py lines 111-122): same field
defaulting and count capping as `search`, with `where`/`orderBy` keys. -/
def queryParams (entity whereClause : String) (fields : Option String)
    (count start : Int) (orderBy : Option String) : List (String × ParamVal) :=
  let fields := fields.getD ((DEFAULT_FIELDS entity).getD "id")
  let base := [("where", ParamVal.str whereClause), ("fields", ParamVal.str fields),
    ("count", ParamVal.int (min count 500)), ("start", ParamVal.int start)]
  match orderBy with
  | some s => if s ≠ "" then base ++ [("orderBy", ParamVal.str s)] else base
  | none => base

/-- `BullhornClient.query` (client.py lines 89-125) up to and including the
delegated `_request`. -/
def queryOp (st : AuthState) (now : Int) (w : NetWorld) (dataNet : Nat → HttpResp String)
    (entity whereClause : String) (fields : Option String)
    (count start : Int) (orderBy : Option String) : ClientOut :=
  clientRequest st now w dataNet "GET" ("/query/" ++ entity)
    (queryParams entity whereClause fields count start orderBy)

/-- The `fields` value used by `get` (client.py lines 140-141):
`DEFAULT_FIELDS.get(entity, "*")` when the caller passed none. -/
def getFields (entity : String) (fields : Option String) : String :=
  fields.getD ((DEFAULT_FIELDS entity).getD "*")

/-- `BullhornClient.get` (client.py lines 127-145) up to and including the
delegated `_request`. -/
def getById (st : AuthState) (now : Int) (w : NetWorld) (dataNet : Nat → HttpResp String)
    (entity : String) (entityId : Int) (fields : Option String) : ClientOut :=
  clientRequest st now w dataNet "GET" ("/entity/" ++ entity ++ "/" ++ toString entityId)
    [("fields", ParamVal.str (getFields entity fields))]

/-! ### Sample fixtures used by concrete witnesses -/

/-- A scripted world whose renewal succeeds via full authentication:
authorize answers with a code-carrying redirect, the exchange returns token
`t1` with refresh token `rt1`, the refresh endpoint answers 500, and REST
login returns token `bh2` at base URL `https://r2/`. -/
def sampleWorld : NetWorld :=
  { authorizeNet := fun _ => ⟨302, some ⟨"https", "auth.bullhornstaffing.com", [("code", "abc")]⟩⟩
    exchangeResp := ⟨200, ⟨some "t1", some "rt1", some 600⟩⟩
    refreshResp := ⟨500, ⟨none, none, none⟩⟩
    loginResp := ⟨200, ⟨some "bh2", some "https://r2/", none⟩⟩ }

/-- Data-plane script: first request rejected with 401, retry succeeds. -/
def sampleData401 : Nat → HttpResp String :=
  fun k => if k = 0 then ⟨401, "denied"⟩ else ⟨200, "payload"⟩

/-- Data-plane script: every request succeeds. -/
def sampleData200 : Nat → HttpResp String := fun _ => ⟨200, "payload"⟩

/-- An auth state holding a live session at base URL `https://r1/` that is
fresh at time 0 (expiry 1000), with no refresh token. -/
def sampleState : AuthState :=
  { session? := some ⟨"bh1", "https://r1/", 1000⟩
    access_token? := some "t0"
    refresh_token? := none
    token_expires_at := 0
    regional_auth_url? := none }

/-- An auth state with a live refresh token (access token valid until 1000)
but no session, used to exercise the refresh-then-fallback path. -/
def sampleRefreshState : AuthState :=
  { session? := none
    access_token? := some "t0"
    refresh_token? := some "rt0"
    token_expires_at := 1000
    regional_auth_url? := none }

/-- Data-plane script: every request rejected with 401. -/
def sampleData401x2 : Nat → HttpResp String := fun _ => ⟨401, "denied"⟩

/-- Authorize script: a single redirect whose location carries both a `code`
and an `error` parameter. -/
def bothNet : Nat → AuthorizeResp := fun _ =>
  ⟨302, some ⟨"https", "auth.bullhornstaffing.com",
    [("code", "abc"), ("error", "access_denied"), ("error_description", "denied")]⟩⟩

/-- Authorize script: a code-carrying redirect to the APAC regional host. -/
def apacNet : Nat → AuthorizeResp := fun _ =>
  ⟨307, some ⟨"https", "auth-apac.bullhornstaffing.com", [("code", "abc")]⟩⟩

/-- Authorize script: a code-carrying redirect to an external callback host. -/
def externalNet : Nat → AuthorizeResp := fun _ =>
  ⟨302, some ⟨"https", "callback.example.com", [("code", "abc")]⟩⟩

/-- Authorize script: a redirect carrying an `error` parameter and no code. -/
def errorNet : Nat → AuthorizeResp := fun _ =>
  ⟨302, some ⟨"https", "auth.bullhornstaffing.com",
    [("error", "access_denied"), ("error_description", "denied")]⟩⟩

/-- Authorize script: an endless chain of vendor-host redirects with no code. -/
def loopNet : Nat → AuthorizeResp := fun _ =>
  ⟨302, some ⟨"https", "auth-emea.bullhornstaffing.com", []⟩⟩

/-- Authorize script: a redirect to a non-vendor host with no code. -/
def externalNoCodeNet : Nat → AuthorizeResp := fun _ =>
  ⟨302, some ⟨"https", "evil.example.com", []⟩⟩

/-! ### Helper lemmas -/

theorem authCodeGo_count_le (net : Nat → AuthorizeResp) :
    ∀ fuel i, (authCodeGo net fuel i).2 ≤ i + fuel := by
  intro fuel
  induction fuel with
  | zero => intro i; simp [authCodeGo]
  | succ n ih =>
    intro i
    simp only [authCodeGo]
    split
    · omega
    · split
      · omega
      · split
        · omega
        · split
          · omega
          · split
            · exact le_trans (ih (i + 1)) (by omega)
            · omega

theorem authCodeGo_count_lb (net : Nat → AuthorizeResp) :
    ∀ fuel i, i + min fuel 1 ≤ (authCodeGo net fuel i).2 := by
  intro fuel
  induction fuel with
  | zero => intro i; simp [authCodeGo]
  | succ n ih =>
    intro i
    simp only [authCodeGo]
    split
    · omega
    · split
      · omega
      · split
        · omega
        · split
          · omega
          · split
            · have := ih (i + 1); omega
            · omega

theorem authCodeGo_failStatus_last (net : Nat → AuthorizeResp) :
    ∀ fuel i s n, authCodeGo net fuel i = (.failStatus s, n) →
      s = (net (n - 1)).status ∧ i ≤ n := by
  intro fuel
  induction fuel with
  | zero =>
    intro i s n h
    simp only [authCodeGo, Prod.mk.injEq, AuthCodeOutcome.failStatus.injEq] at h
    obtain ⟨h1, h2⟩ := h
    subst h2
    exact ⟨h1.symm, le_refl _⟩
  | succ m ih =>
    intro i s n h
    simp only [authCodeGo] at h
    split at h
    · simp only [Prod.mk.injEq, AuthCodeOutcome.failStatus.injEq] at h
      obtain ⟨h1, h2⟩ := h
      subst h2
      exact ⟨by simpa using h1.symm, by omega⟩
    · split at h
      · simp only [Prod.mk.injEq, AuthCodeOutcome.failStatus.injEq] at h
        obtain ⟨h1, h2⟩ := h
        subst h2
        exact ⟨by simpa using h1.symm, by omega⟩
      · split at h
        · simp at h
        · split at h
          · simp at h
          · split at h
            · obtain ⟨h1, h2⟩ := ih (i + 1) s n h
              exact ⟨h1, by omega⟩
            · simp only [Prod.mk.injEq, AuthCodeOutcome.failStatus.injEq] at h
              obtain ⟨h1, h2⟩ := h
              subst h2
              exact ⟨by simpa using h1.symm, by omega⟩



theorem authCodeGo_halt_nonvendor (net : Nat → AuthorizeResp) (fuel i : Nat) (p : ParsedUrl)
    (hred : isRedirect (net i).status = true) (hloc : (net i).location = some p)
    (hc : qpHas p.query "code" = false) (he : qpHas p.query "error" = false)
    (hv : vendorHost p.netloc = false) :
    authCodeGo net (fuel + 1) i = (.failStatus (net i).status, i + 1) := by
  simp only [authCodeGo, hred, hloc, hc, he, hv]
  simp

theorem authCodeGo_code_first (net : Nat → AuthorizeResp) (fuel i : Nat) (p : ParsedUrl)
    (hred : isRedirect (net i).status = true) (hloc : (net i).location = some p)
    (hc : qpHas p.query "code" = true) :
    authCodeGo net (fuel + 1) i
      = (.gotCode (qpFirst p.query "code" "") (regionalUpdate p), i + 1) := by
  simp only [authCodeGo, hred, hloc, hc]
  simp

theorem authCodeGo_error_nocode (net : Nat → AuthorizeResp) (fuel i : Nat) (p : ParsedUrl)
    (hred : isRedirect (net i).status = true) (hloc : (net i).location = some p)
    (hc : qpHas p.query "code" = false) (he : qpHas p.query "error" = true) :
    authCodeGo net (fuel + 1) i
      = (.oauthError (qpFirst p.query "error" "unknown")
          (qpFirst p.query "error_description" ""), i + 1) := by
  simp only [authCodeGo, hred, hloc, hc, he]
  simp

theorem authCodeGo_gotCode_src (net : Nat → AuthorizeResp) :
    ∀ fuel i c u n, authCodeGo net fuel i = (.gotCode c u, n) →
      ∃ j p, i ≤ j ∧ (net j).location = some p ∧ qpHas p.query "code" = true
        ∧ c = qpFirst p.query "code" "" ∧ u = regionalUpdate p := by
  intro fuel
  induction fuel with
  | zero => intro i c u n h; simp [authCodeGo] at h
  | succ m ih =>
    intro i c u n h
    simp only [authCodeGo] at h
    split at h
    · simp at h
    · split at h
      · simp at h
      · rename_i parsed hloc
        split at h
        · rename_i hc
          simp only [Prod.mk.injEq, AuthCodeOutcome.gotCode.injEq] at h
          exact ⟨i, parsed, le_refl _, hloc, hc, h.1.1.symm, h.1.2.symm⟩
        · split at h
          · simp at h
          · split at h
            · obtain ⟨j, p, hij, hl, hq, hc2, hu⟩ := ih (i + 1) c u n h
              exact ⟨j, p, by omega, hl, hq, hc2, hu⟩
            · simp at h



theorem restLogin_ok_elim (st st2 : AuthState) (now : Int) (r : HttpResp LoginBody)
    (h : restLogin st now r = .ok st2) :
    r.status = 200 ∧ ∃ bh ru, r.body.BhRestToken = some bh ∧ r.body.restUrl = some ru
      ∧ st2 = { st with session? := some ⟨bh, ru, now + 600⟩ } := by
  unfold restLogin at h
  split at h
  · simp at h
  · split at h
    · simp at h
    · rename_i hstat
      split at h
      · rename_i bh ru hbh hru
        simp only [Except.ok.injEq] at h
        exact ⟨by omega, bh, ru, hbh, hru, h.symm⟩
      · simp at h

theorem loginPhase_events (o : AuthOut) (now : Int) (lr : HttpResp LoginBody) :
    (loginPhase o now lr).events
      = o.events ++ (if o.error = none then [AuthEvent.restLogin] else []) := by
  unfold loginPhase
  cases h : o.error with
  | none =>
    cases hr : restLogin o.state now lr <;> simp [h, hr]
  | some e => simp [h]

theorem loginPhase_error_none (o : AuthOut) (now : Int) (lr : HttpResp LoginBody)
    (h : (loginPhase o now lr).error = none) :
    o.error = none ∧ restLogin o.state now lr = .ok (loginPhase o now lr).state := by
  unfold loginPhase at h ⊢
  cases he : o.error with
  | none =>
    cases hr : restLogin o.state now lr with
    | ok s2 => simp [he, hr]
    | error e => simp [he, hr] at h
  | some e => simp [he] at h

theorem loginPhase_same (s : AuthState) (e? : Option String) (ev ev' : List AuthEvent)
    (now : Int) (lr : HttpResp LoginBody) :
    (loginPhase ⟨s, e?, ev⟩ now lr).state = (loginPhase ⟨s, e?, ev'⟩ now lr).state
    ∧ (loginPhase ⟨s, e?, ev⟩ now lr).error = (loginPhase ⟨s, e?, ev'⟩ now lr).error := by
  unfold loginPhase
  cases e? with
  | none => cases restLogin s now lr <;> simp
  | some e => simp

theorem refreshSession_eq_loginPhase (st : AuthState) (now : Int) (w : NetWorld) :
    refreshSession st now w
      = loginPhase
          (if st.refresh_token?.isSome && decide (now < st.token_expires_at - 60) then
            match refreshAccessToken st now w.refreshResp with
            | .ok st1 => ⟨st1, none, [.refreshAttempt]⟩
            | .error _ =>
              ⟨(fullAuth st now w).state, (fullAuth st now w).error,
                .refreshAttempt :: (fullAuth st now w).events⟩
          else fullAuth st now w) now w.loginResp := by
  unfold refreshSession
  rfl

theorem refreshSession_error_none (st : AuthState) (now : Int) (w : NetWorld)
    (h : (refreshSession st now w).error = none) :
    w.loginResp.status = 200
    ∧ ∃ bh ru, w.loginResp.body.BhRestToken = some bh ∧ w.loginResp.body.restUrl = some ru
      ∧ (refreshSession st now w).state.session?
          = some { bh_rest_token := bh, rest_url := ru, expires_at := now + 600 } := by
  rw [refreshSession_eq_loginPhase] at h ⊢
  obtain ⟨hO, hrl⟩ := loginPhase_error_none _ now w.loginResp h
  obtain ⟨hstat, bh, ru, hbh, hru, hset⟩ := restLogin_ok_elim _ _ now w.loginResp hrl
  refine ⟨hstat, bh, ru, hbh, hru, ?_⟩
  rw [hset]

theorem refreshSession_fresh_after (st : AuthState) (now : Int) (w : NetWorld)
    (h : (refreshSession st now w).error = none) :
    sessionStale (refreshSession st now w).state now = false := by
  obtain ⟨-, bh, ru, -, -, hs⟩ := refreshSession_error_none st now w h
  unfold sessionStale
  rw [hs]
  simp

theorem exchangeAuthCode_ok_elim (st st2 : AuthState) (now : Int) (r : HttpResp TokenBody)
    (h : exchangeAuthCode st now r = .ok st2) :
    r.status = 200 ∧ ∃ tok, r.body.access_token = some tok
      ∧ st2 = { st with access_token? := some tok, refresh_token? := r.body.refresh_token,
                        token_expires_at := now + r.body.expires_in.getD 600 } := by
  unfold exchangeAuthCode at h
  split at h
  · simp at h
  · rename_i hstat
    split at h
    · simp at h
    · rename_i tok htok
      simp only [Except.ok.injEq] at h
      exact ⟨by omega, tok, htok, h.symm⟩

theorem fullAuth_events (st : AuthState) (now : Int) (w : NetWorld) :
    (fullAuth st now w).events = [AuthEvent.authorizeGet]
    ∨ (fullAuth st now w).events = [AuthEvent.authorizeGet, AuthEvent.tokenExchange] := by
  unfold fullAuth
  cases (getAuthCode w.authorizeNet).1 with
  | gotCode c u =>
    simp only []
    split <;> simp
  | oauthError e d => simp
  | failStatus s => simp

theorem fullAuth_events_head (st : AuthState) (now : Int) (w : NetWorld) :
    (fullAuth st now w).events.head? = some AuthEvent.authorizeGet := by
  rcases fullAuth_events st now w with h | h <;> rw [h] <;> rfl

theorem refreshAttempt_notin_fullAuth (st : AuthState) (now : Int) (w : NetWorld) :
    AuthEvent.refreshAttempt ∉ (fullAuth st now w).events := by
  rcases fullAuth_events st now w with h | h <;> rw [h] <;> simp

theorem fullAuth_regional (st : AuthState) (now : Int) (w : NetWorld) :
    (fullAuth st now w).state.regional_auth_url?
      = match (getAuthCode w.authorizeNet).1 with
        | .gotCode _ (some o) => some o
        | .gotCode _ none => st.regional_auth_url?
        | .oauthError _ _ => st.regional_auth_url?
        | .failStatus _ => st.regional_auth_url? := by
  unfold fullAuth
  cases hg : (getAuthCode w.authorizeNet).1 with
  | gotCode c u =>
    simp only []
    cases hex : exchangeAuthCode { st with regional_auth_url? := u.orElse fun _ => st.regional_auth_url? } now w.exchangeResp with
    | ok st2 =>
      obtain ⟨-, tok, -, h2⟩ := exchangeAuthCode_ok_elim _ _ _ _ hex
      subst h2
      cases u <;> simp [Option.orElse]
    | error e => cases u <;> simp [Option.orElse]
  | oauthError e d => simp
  | failStatus s => simp

theorem clientRequest_params_inv (st : AuthState) (now : Int) (w : NetWorld)
    (dataNet : Nat → HttpResp String) (method endpoint : String)
    (ps : List (String × ParamVal)) :
    ∀ r ∈ (clientRequest st now w dataNet method endpoint ps).requests,
      r.params = ps ∧ r.method = method := by
  intro r hr
  simp only [clientRequest] at hr
  repeat' split at hr
  all_goals simp_all
  all_goals (rcases hr with rfl | rfl <;> simp)

/-! ### Claim theorems -/

/-- **C5** Obtain-session staleness rule: the `session` property renews iff no
session exists or `now` is within 60 seconds of (or past) the held session's
expiry (renewal count 1 vs 0); when the held session has more than 60 seconds
left it returns the unchanged state — hence the same session snapshot — with
an empty network trace, and a second call inside the freshness window again
performs zero network activity; when stale, the property's result is exactly
one `_refresh_session` run. -/
theorem session_staleness_rule (st : AuthState) (now now' : Int) (w w' : NetWorld) :
    ((getSessionR st now w).2 = 0 ↔ ∃ s, st.session? = some s ∧ now < s.expires_at - 60)
    ∧ ((getSessionR st now w).2 = 1
        ↔ (st.session? = none ∨ ∃ s, st.session? = some s ∧ s.expires_at - 60 ≤ now))
    ∧ (∀ s, st.session? = some s → now < s.expires_at - 60 →
        getSessionR st now w = (⟨st, none, []⟩, 0)
        ∧ (now' < s.expires_at - 60 → getSessionR st now' w' = (⟨st, none, []⟩, 0)))
    ∧ (sessionStale st now = true → getSessionR st now w = (refreshSession st now w, 1)) := by
  have hstale : ∀ (t : Int), sessionStale st t = false
      ↔ ∃ s, st.session? = some s ∧ t < s.expires_at - 60 := by
    intro t
    unfold sessionStale
    cases hs : st.session? with
    | none => simp
    | some s => (simp; omega)
  have hstale2 : ∀ (t : Int), sessionStale st t = true
      ↔ (st.session? = none ∨ ∃ s, st.session? = some s ∧ s.expires_at - 60 ≤ t) := by
    intro t
    unfold sessionStale
    cases hs : st.session? with
    | none => simp
    | some s => simp
  refine ⟨?_, ?_, ?_, ?_⟩
  · rw [← hstale]
    unfold getSessionR
    by_cases h : sessionStale st now <;> simp [h]
  · rw [← hstale2]
    unfold getSessionR
    by_cases h : sessionStale st now <;> simp [h]
  · intro s hs hlt
    have h1 : sessionStale st now = false := (hstale now).mpr ⟨s, hs, hlt⟩
    constructor
    · unfold getSessionR
      rw [h1]
      simp
    · intro hlt2
      have h2 : sessionStale st now' = false := (hstale now').mpr ⟨s, hs, hlt2⟩
      unfold getSessionR
      rw [h2]
      simp
  · intro h
    unfold getSessionR
    rw [h]
    simp

/-- Witness for C5: at time 0, a session expiring at 1000 is fresh, so the
property returns it unchanged with zero renewals and zero network events, and
a second call at time 100 does the same. -/
theorem session_staleness_rule_witness :
    getSessionR sampleState 0 sampleWorld = (⟨sampleState, none, []⟩, 0)
    ∧ getSessionR sampleState 100 sampleWorld = (⟨sampleState, none, []⟩, 0) := by
  have h := (session_staleness_rule sampleState 0 100 sampleWorld sampleWorld).2.2.1
    ⟨"bh1", "https://r1/", 1000⟩ rfl (by decide)
  exact ⟨h.1, h.2 (by decide)⟩

/-- **C6** Session login contract: `_rest_login` fails with
`AuthenticationError` when no access token is held; for a 200 response whose
body lacks the session-token field or the base-URL field it fails describing
the malformed payload; otherwise it installs a session whose expiry is exactly
`now + 600`, independent of anything else in the response body. -/
theorem restLogin_contract (st : AuthState) (now : Int) (resp : HttpResp LoginBody) :
    (st.access_token? = none → restLogin st now resp = .error "No access token available")
    ∧ (∀ tok, st.access_token? = some tok → resp.status = 200 →
        ((resp.body.BhRestToken = none ∨ resp.body.restUrl = none) →
          restLogin st now resp = .error "Invalid login response")
        ∧ (∀ bh ru, resp.body.BhRestToken = some bh → resp.body.restUrl = some ru →
            restLogin st now resp
              = .ok { st with session? := some { bh_rest_token := bh, rest_url := ru,
                                                 expires_at := now + 600 } })) := by
  constructor
  · intro h; unfold restLogin; rw [h]
  · intro tok htok hstat
    constructor
    · intro hmiss
      rcases hmiss with h | h
      · simp [restLogin, htok, hstat, h]
      · cases hbh : resp.body.BhRestToken <;> simp [restLogin, htok, hstat, h, hbh]
    · intro bh ru hbh hru
      simp [restLogin, htok, hstat, hbh, hru]

/-- Witness for C6: no access token fails; a 200 body missing `BhRestToken`
fails as malformed; a complete 200 body at time 5 installs a session expiring
at 5 + 600, ignoring the extra body field 99. -/
theorem restLogin_contract_witness :
    restLogin { initAuthState with access_token? := none } 0 ⟨200, ⟨some "bh", some "ru", none⟩⟩
      = Except.error "No access token available"
    ∧ restLogin { initAuthState with access_token? := some "t" } 5 ⟨200, ⟨none, some "ru", none⟩⟩
      = Except.error "Invalid login response"
    ∧ restLogin { initAuthState with access_token? := some "t" } 5 ⟨200, ⟨some "bh", some "ru", some 99⟩⟩
      = Except.ok { initAuthState with access_token? := some "t", session? := some ⟨"bh", "ru", 5 + 600⟩ } := by
  refine ⟨?_, ?_, ?_⟩
  · exact (restLogin_contract _ 0 _).1 rfl
  · exact ((restLogin_contract _ 5 _).2 "t" rfl rfl).1 (Or.inl rfl)
  · exact ((restLogin_contract _ 5 _).2 "t" rfl rfl).2 "bh" "ru" rfl rfl

/-- **C8** Count clamping: every `search` or `query` call places
`count = min(count, 500)` on the wire request — values above 500 are capped
to exactly 500, values at or below 500 pass through unchanged — and every
request actually issued by `search`/`query` carries exactly those params. -/
theorem count_clamped (st : AuthState) (now : Int) (w : NetWorld)
    (dataNet : Nat → HttpResp String) (entity q whereClause : String)
    (fields : Option String) (count start : Int) (srt ob : Option String) :
    ((searchParams entity q fields count start srt).find? (fun p => p.1 == "count")
        = some ("count", ParamVal.int (min count 500)))
    ∧ ((queryParams entity whereClause fields count start ob).find? (fun p => p.1 == "count")
        = some ("count", ParamVal.int (min count 500)))
    ∧ (count ≤ 500 → min count 500 = count)
    ∧ (500 < count → min count 500 = 500)
    ∧ (∀ r ∈ (search st now w dataNet entity q fields count start srt).requests,
        r.params = searchParams entity q fields count start srt)
    ∧ (∀ r ∈ (queryOp st now w dataNet entity whereClause fields count start ob).requests,
        r.params = queryParams entity whereClause fields count start ob) := by
  refine ⟨?_, ?_, fun h => min_eq_left h, fun h => min_eq_right (le_of_lt h), ?_, ?_⟩
  · unfold searchParams
    cases srt with
    | none => simp [List.find?]
    | some s => by_cases hs : s = "" <;> simp [hs, List.find?]
  · unfold queryParams
    cases ob with
    | none => simp [List.find?]
    | some s => by_cases hs : s = "" <;> simp [hs, List.find?]
  · intro r hr
    exact (clientRequest_params_inv st now w dataNet "GET" ("/search/" ++ entity) _ r hr).1
  · intro r hr
    exact (clientRequest_params_inv st now w dataNet "GET" ("/query/" ++ entity) _ r hr).1

/-- Witness for C8: `count=1000` is wired as 500, `count=25` passes through. -/
theorem count_clamped_witness :
    (searchParams "JobOrder" "isOpen:1" none 1000 0 none).find? (fun p => p.1 == "count")
      = some ("count", ParamVal.int 500)
    ∧ (queryParams "Candidate" "id>0" none 25 0 none).find? (fun p => p.1 == "count")
      = some ("count", ParamVal.int 25) := by
  constructor
  · have h := (count_clamped sampleState 0 sampleWorld sampleData200 "JobOrder" "isOpen:1" "x"
      none 1000 0 none none).1
    rw [show min (1000 : Int) 500 = 500 from by decide] at h
    exact h
  · have h := (count_clamped sampleState 0 sampleWorld sampleData200 "Candidate" "x" "id>0"
      none 25 0 none none).2.1
    rw [show min (25 : Int) 500 = 25 from by decide] at h
    exact h

/-- **C9** Default field selection: `DEFAULT_FIELDS` is defined exactly on the
five known entity types with the curated lists verbatim; with `fields`
omitted, `search`/`query` wire the curated default for a known type and `"id"`
for any other type, while `get` uses the curated default for a known type and
`"*"` for any other type. -/
theorem default_fields_rule (entity q : String) (count start : Int) (srt ob : Option String) :
    (DEFAULT_FIELDS "JobOrder"
        = some "id,title,status,employmentType,dateAdded,startDate,salary,clientCorporation,owner,description,numOpenings,isOpen"
      ∧ DEFAULT_FIELDS "Candidate"
        = some "id,firstName,lastName,email,phone,status,dateAdded,occupation,skillSet,owner"
      ∧ DEFAULT_FIELDS "Placement"
        = some "id,candidate,jobOrder,status,dateBegin,dateEnd,salary,payRate"
      ∧ DEFAULT_FIELDS "ClientCorporation" = some "id,name,status,phone,address"
      ∧ DEFAULT_FIELDS "ClientContact"
        = some "id,firstName,lastName,email,phone,clientCorporation")
    ∧ (DEFAULT_FIELDS entity = none
        ↔ entity ∉ ["JobOrder", "Candidate", "Placement", "ClientCorporation", "ClientContact"])
    ∧ (DEFAULT_FIELDS entity = none →
        (searchParams entity q none count start srt).find? (fun p => p.1 == "fields")
          = some ("fields", ParamVal.str "id")
        ∧ (queryParams entity q none count start ob).find? (fun p => p.1 == "fields")
          = some ("fields", ParamVal.str "id")
        ∧ getFields entity none = "*")
    ∧ (∀ d, DEFAULT_FIELDS entity = some d →
        (searchParams entity q none count start srt).find? (fun p => p.1 == "fields")
          = some ("fields", ParamVal.str d)
        ∧ (queryParams entity q none count start ob).find? (fun p => p.1 == "fields")
          = some ("fields", ParamVal.str d)
        ∧ getFields entity none = d) := by
  refine ⟨⟨rfl, rfl, rfl, rfl, rfl⟩, ?_, ?_, ?_⟩
  · unfold DEFAULT_FIELDS
    split_ifs with h1 h2 h3 h4 h5 <;> simp_all
  · intro h
    refine ⟨?_, ?_, ?_⟩
    · unfold searchParams
      rw [h]
      cases srt with
      | none => simp [List.find?]
      | some s => by_cases hs : s = "" <;> simp [hs, List.find?]
    · unfold queryParams
      rw [h]
      cases ob with
      | none => simp [List.find?]
      | some s => by_cases hs : s = "" <;> simp [hs, List.find?]
    · unfold getFields
      rw [h]
      rfl
  · intro d h
    refine ⟨?_, ?_, ?_⟩
    · unfold searchParams
      rw [h]
      cases srt with
      | none => simp [List.find?]
      | some s => by_cases hs : s = "" <;> simp [hs, List.find?]
    · unfold queryParams
      rw [h]
      cases ob with
      | none => simp [List.find?]
      | some s => by_cases hs : s = "" <;> simp [hs, List.find?]
    · unfold getFields
      rw [h]
      rfl

/-- Witness for C9: an unknown entity type wires `fields=id` for search and
`*` for get; `JobOrder` wires its curated list. -/
theorem default_fields_rule_witness :
    (searchParams "UnknownEntityXYZ" "q" none 20 0 none).find? (fun p => p.1 == "fields")
      = some ("fields", ParamVal.str "id")
    ∧ getFields "UnknownEntityXYZ" none = "*"
    ∧ (searchParams "JobOrder" "q" none 20 0 none).find? (fun p => p.1 == "fields")
      = some ("fields",
          ParamVal.str "id,title,status,employmentType,dateAdded,startDate,salary,clientCorporation,owner,description,numOpenings,isOpen")
    ∧ getFields "JobOrder" none
      = "id,title,status,employmentType,dateAdded,startDate,salary,clientCorporation,owner,description,numOpenings,isOpen" := by
  have h1 := (default_fields_rule "UnknownEntityXYZ" "q" 20 0 none none).2.2.1 rfl
  have h2 := (default_fields_rule "JobOrder" "q" 20 0 none none).2.2.2
    "id,title,status,employmentType,dateAdded,startDate,salary,clientCorporation,owner,description,numOpenings,isOpen"
    rfl
  exact ⟨h1.1, h1.2.2, h2.1, h2.2.2⟩

/-- **C1** Renewal policy: `_refresh_session` attempts the refresh-token flow
iff a refresh token is held and the access-token expiry is more than 60
seconds away (in particular, with no refresh token the full authentication
flow runs and no refresh is ever attempted); a refresh error is not
propagated — the result is exactly that of the full-auth-then-login pipeline;
a successful refresh is still followed by REST login; and every successful
renewal ends with the REST-login exchange installing the new session. -/
theorem refreshSession_policy (st : AuthState) (now : Int) (w : NetWorld) :
    ((refreshSession st now w).events.head? = some AuthEvent.refreshAttempt
       ↔ st.refresh_token?.isSome = true ∧ now < st.token_expires_at - 60)
    ∧ (st.refresh_token? = none →
        AuthEvent.refreshAttempt ∉ (refreshSession st now w).events
        ∧ (refreshSession st now w).events.head? = some AuthEvent.authorizeGet)
    ∧ (∀ e, refreshAccessToken st now w.refreshResp = Except.error e →
        st.refresh_token?.isSome = true → now < st.token_expires_at - 60 →
        (refreshSession st now w).state = (loginPhase (fullAuth st now w) now w.loginResp).state
        ∧ (refreshSession st now w).error = (loginPhase (fullAuth st now w) now w.loginResp).error
        ∧ (refreshSession st now w).events
            = AuthEvent.refreshAttempt :: (loginPhase (fullAuth st now w) now w.loginResp).events)
    ∧ (∀ st1, refreshAccessToken st now w.refreshResp = Except.ok st1 →
        st.refresh_token?.isSome = true → now < st.token_expires_at - 60 →
        (refreshSession st now w).events = [AuthEvent.refreshAttempt, AuthEvent.restLogin])
    ∧ ((refreshSession st now w).error = none →
        (refreshSession st now w).events.getLast? = some AuthEvent.restLogin
        ∧ ∃ bh ru, w.loginResp.body.BhRestToken = some bh ∧ w.loginResp.body.restUrl = some ru
            ∧ (refreshSession st now w).state.session?
                = some { bh_rest_token := bh, rest_url := ru, expires_at := now + 600 }) := by
  have hlast : (refreshSession st now w).error = none →
      (refreshSession st now w).events.getLast? = some AuthEvent.restLogin
      ∧ ∃ bh ru, w.loginResp.body.BhRestToken = some bh ∧ w.loginResp.body.restUrl = some ru
          ∧ (refreshSession st now w).state.session?
              = some { bh_rest_token := bh, rest_url := ru, expires_at := now + 600 } := by
    intro h
    obtain ⟨hstat, bh, ru, hbh, hru, hsess⟩ := refreshSession_error_none st now w h
    refine ⟨?_, bh, ru, hbh, hru, hsess⟩
    rw [refreshSession_eq_loginPhase] at h ⊢
    obtain ⟨hO, -⟩ := loginPhase_error_none _ now w.loginResp h
    rw [loginPhase_events _ now w.loginResp, hO]
    simp
  by_cases hb : (st.refresh_token?.isSome && decide (now < st.token_expires_at - 60)) = true
  · -- refresh flow is attempted
    have hb2 : st.refresh_token?.isSome = true ∧ now < st.token_expires_at - 60 := by
      simpa using hb
    cases hra : refreshAccessToken st now w.refreshResp with
    | ok st1 =>
      have hev : (refreshSession st now w).events = [AuthEvent.refreshAttempt, AuthEvent.restLogin] := by
        rw [refreshSession_eq_loginPhase, if_pos hb, hra]
        rw [loginPhase_events _ now w.loginResp]
        simp
      refine ⟨?_, ?_, ?_, ?_, hlast⟩
      · rw [hev]; simp [hb2]
      · intro hnone; rw [hnone] at hb2; simp at hb2
      · intro e he
        exact Except.noConfusion he
      · intro st2 _ _ _; exact hev
    | error e0 =>
      have hcons : refreshSession st now w
          = loginPhase ⟨(fullAuth st now w).state, (fullAuth st now w).error,
              AuthEvent.refreshAttempt :: (fullAuth st now w).events⟩ now w.loginResp := by
        rw [refreshSession_eq_loginPhase, if_pos hb, hra]
      have hsame := loginPhase_same (fullAuth st now w).state (fullAuth st now w).error
        (AuthEvent.refreshAttempt :: (fullAuth st now w).events) (fullAuth st now w).events
        now w.loginResp
      have hev : (refreshSession st now w).events
          = AuthEvent.refreshAttempt :: (loginPhase (fullAuth st now w) now w.loginResp).events := by
        rw [hcons, loginPhase_events _ now w.loginResp, loginPhase_events _ now w.loginResp]
        simp
      refine ⟨?_, ?_, ?_, ?_, hlast⟩
      · rw [hev]; simp [hb2]
      · intro hnone; rw [hnone] at hb2; simp at hb2
      · intro e he _ _
        refine ⟨?_, ?_, hev⟩
        · rw [hcons]; exact hsame.1
        · rw [hcons]; exact hsame.2
      · intro st2 hok
        exact Except.noConfusion hok
  · -- straight to full authentication
    have hb2 : ¬(st.refresh_token?.isSome = true ∧ now < st.token_expires_at - 60) := by
      intro hcontra
      exact hb (by simp [hcontra.1, hcontra.2])
    have heq : refreshSession st now w = loginPhase (fullAuth st now w) now w.loginResp := by
      rw [refreshSession_eq_loginPhase, if_neg hb]
    have hevfa := fullAuth_events st now w
    have hev : (refreshSession st now w).events
        = (fullAuth st now w).events
          ++ (if (fullAuth st now w).error = none then [AuthEvent.restLogin] else []) := by
      rw [heq, loginPhase_events _ now w.loginResp]
    refine ⟨?_, ?_, ?_, ?_, hlast⟩
    · constructor
      · intro hhead
        exfalso
        rw [hev] at hhead
        rcases hevfa with h | h <;> rw [h] at hhead <;> simp at hhead
      · intro hcontra; exact absurd hcontra hb2
    · intro hnone
      constructor
      · rw [hev]
        intro hmem
        rcases List.mem_append.mp hmem with h | h
        · exact refreshAttempt_notin_fullAuth st now w h
        · split at h <;> simp at h
      · rw [hev]
        rcases hevfa with h | h <;> rw [h] <;> simp
    · intro e he hsome hlt; exact absurd ⟨hsome, hlt⟩ hb2
    · intro st1 hok hsome hlt; exact absurd ⟨hsome, hlt⟩ hb2



/-- Witness for C1: a held refresh token with >60s left and a failing refresh
endpoint lead to the fallback full-auth pipeline with the refresh attempt
recorded first. -/
theorem refreshSession_policy_witness :
    (refreshSession sampleRefreshState 0 sampleWorld).events
      = AuthEvent.refreshAttempt
        :: (loginPhase (fullAuth sampleRefreshState 0 sampleWorld) 0 sampleWorld.loginResp).events
    ∧ (refreshSession sampleRefreshState 0 sampleWorld).events.head?
        = some AuthEvent.refreshAttempt := by
  have h := refreshSession_policy sampleRefreshState 0 sampleWorld
  refine ⟨(h.2.2.1 "Token refresh failed: 500" ?_ ?_ ?_).2.2, h.1.mpr ⟨?_, ?_⟩⟩
  · rfl
  · decide
  · decide
  · decide
  · decide

/-- Helper: `_request` never issues more than two data-plane requests. -/
theorem clientRequest_requests_len (st : AuthState) (now : Int) (w : NetWorld)
    (dataNet : Nat → HttpResp String) (method endpoint : String)
    (ps : List (String × ParamVal)) :
    (clientRequest st now w dataNet method endpoint ps).requests.length ≤ 2 := by
  simp only [clientRequest]
  repeat' split
  all_goals simp

/-- Shared helper: the exact outcome of `_request` when a fresh session's
first data request is rejected with 401 and the forced renewal succeeds. -/
theorem clientRequest_after_401 (st : AuthState) (now : Int) (w : NetWorld)
    (dataNet : Nat → HttpResp String) (method endpoint : String)
    (ps : List (String × ParamVal)) (s : BullhornSession)
    (hs : st.session? = some s) (hfresh : now < s.expires_at - 60)
    (h401 : (dataNet 0).status = 401)
    (hren : (refreshSession st now w).error = none) :
    ∃ s2, (refreshSession st now w).state.session? = some s2
      ∧ clientRequest st now w dataNet method endpoint ps
        = ⟨if (dataNet 1).status = 200 then .ok (dataNet 1).body
           else .apiError (dataNet 1).status (dataNet 1).body,
           (refreshSession st now w).state,
           [⟨method, s.rest_url ++ endpoint, ps, s.bh_rest_token⟩,
            ⟨method, s.rest_url ++ endpoint, ps, s2.bh_rest_token⟩], 1⟩ := by
  have hstale : sessionStale st now = false := by
    unfold sessionStale
    rw [hs]
    simp
    omega
  have hget : getSessionR st now w = (⟨st, none, []⟩, 0) := by
    unfold getSessionR
    simp [hstale]
  obtain ⟨-, bh, ru, -, -, hsess⟩ := refreshSession_error_none st now w hren
  have hstale2 : sessionStale (refreshSession st now w).state now = false :=
    refreshSession_fresh_after st now w hren
  have hget2 : getSessionR (refreshSession st now w).state now w
      = (⟨(refreshSession st now w).state, none, []⟩, 0) := by
    unfold getSessionR
    simp [hstale2]
  refine ⟨⟨bh, ru, now + 600⟩, hsess, ?_⟩
  simp only [clientRequest, hget, hs, h401, hren, hget2, hsess]
  by_cases hc : (dataNet 1).status = 200 <;> simp [hc]

/-- **C2** Retry-once-on-401: with a fresh session, a 200 first response is
returned directly with no renewal; a non-401 failure raises
`BullhornAPIError` with that status and body after one request; a 401 first
response forces exactly one renewal, re-reads the session, and retries
exactly once with the new credential header — returning the body on a 200
retry and raising `BullhornAPIError` with the retried status/body otherwise;
in every case at most two data requests are issued. -/
theorem request_retry_once_on_401 (st : AuthState) (now : Int) (w : NetWorld)
    (dataNet : Nat → HttpResp String) (method endpoint : String)
    (ps : List (String × ParamVal)) (s : BullhornSession)
    (hs : st.session? = some s) (hfresh : now < s.expires_at - 60) :
    (clientRequest st now w dataNet method endpoint ps).requests.length ≤ 2
    ∧ ((dataNet 0).status = 200 →
        clientRequest st now w dataNet method endpoint ps
          = ⟨.ok (dataNet 0).body, st,
             [⟨method, s.rest_url ++ endpoint, ps, s.bh_rest_token⟩], 0⟩)
    ∧ ((dataNet 0).status ≠ 401 → (dataNet 0).status ≠ 200 →
        clientRequest st now w dataNet method endpoint ps
          = ⟨.apiError (dataNet 0).status (dataNet 0).body, st,
             [⟨method, s.rest_url ++ endpoint, ps, s.bh_rest_token⟩], 0⟩)
    ∧ ((dataNet 0).status = 401 → (refreshSession st now w).error = none →
        ∃ s2, (refreshSession st now w).state.session? = some s2
          ∧ clientRequest st now w dataNet method endpoint ps
            = ⟨if (dataNet 1).status = 200 then .ok (dataNet 1).body
               else .apiError (dataNet 1).status (dataNet 1).body,
               (refreshSession st now w).state,
               [⟨method, s.rest_url ++ endpoint, ps, s.bh_rest_token⟩,
                ⟨method, s.rest_url ++ endpoint, ps, s2.bh_rest_token⟩], 1⟩) := by
  have hstale : sessionStale st now = false := by
    unfold sessionStale
    rw [hs]
    simp
    omega
  have hget : getSessionR st now w = (⟨st, none, []⟩, 0) := by
    unfold getSessionR
    simp [hstale]
  refine ⟨clientRequest_requests_len st now w dataNet method endpoint ps, ?_, ?_, ?_⟩
  · intro h200
    simp [clientRequest, hget, hs, h200]
  · intro hn401 hn200
    simp [clientRequest, hget, hs, hn401, hn200]
  · intro h401 hren
    exact clientRequest_after_401 st now w dataNet method endpoint ps s hs hfresh h401 hren

/-- Witness for C2: 401-then-200 returns the 200 payload with exactly one
renewal; two consecutive 401s raise the API error. -/
theorem request_retry_once_on_401_witness :
    ((clientRequest sampleState 0 sampleWorld sampleData401 "GET" "/x" []).result
        = ReqResult.ok "payload"
      ∧ (clientRequest sampleState 0 sampleWorld sampleData401 "GET" "/x" []).renewals = 1)
    ∧ (clientRequest sampleState 0 sampleWorld sampleData401x2 "GET" "/x" []).result
        = ReqResult.apiError 401 "denied" := by
  constructor
  · obtain ⟨s2, hs2, heq⟩ := (request_retry_once_on_401 sampleState 0 sampleWorld sampleData401
      "GET" "/x" [] ⟨"bh1", "https://r1/", 1000⟩ rfl (by decide)).2.2.2 rfl rfl
    rw [heq]
    simp [sampleData401]
  · obtain ⟨s2, hs2, heq⟩ := (request_retry_once_on_401 sampleState 0 sampleWorld sampleData401x2
      "GET" "/x" [] ⟨"bh1", "https://r1/", 1000⟩ rfl (by decide)).2.2.2 rfl rfl
    rw [heq]
    simp [sampleData401x2]

/-- **C10** On the 401-retry path only the credential header is rebuilt from
the renewed session: both the original and the retried request target the URL
built from the pre-renewal session's base URL, while the retried request
carries the renewed session's token. -/
theorem retry_url_stale_base (st : AuthState) (now : Int) (w : NetWorld)
    (dataNet : Nat → HttpResp String) (method endpoint : String)
    (ps : List (String × ParamVal)) (s : BullhornSession)
    (hs : st.session? = some s) (hfresh : now < s.expires_at - 60)
    (h401 : (dataNet 0).status = 401)
    (hren : (refreshSession st now w).error = none) :
    ∃ s2, (refreshSession st now w).state.session? = some s2
      ∧ (clientRequest st now w dataNet method endpoint ps).requests.map DataRequest.url
          = [s.rest_url ++ endpoint, s.rest_url ++ endpoint]
      ∧ (clientRequest st now w dataNet method endpoint ps).requests.map DataRequest.bhRestToken
          = [s.bh_rest_token, s2.bh_rest_token] := by
  obtain ⟨s2, hs2, heq⟩ :=
    clientRequest_after_401 st now w dataNet method endpoint ps s hs hfresh h401 hren
  refine ⟨s2, hs2, ?_, ?_⟩ <;> rw [heq] <;> rfl

/-- Witness for C10: renewal moves the base URL to `https://r2/`, yet the
retried request still targets `https://r1//x`, with the new token `bh2`. -/
theorem retry_url_stale_base_witness :
    (refreshSession sampleState 0 sampleWorld).state.session?
      = some ⟨"bh2", "https://r2/", 600⟩
    ∧ (clientRequest sampleState 0 sampleWorld sampleData401 "GET" "/x" []).requests.map
        DataRequest.url = ["https://r1//x", "https://r1//x"]
    ∧ (clientRequest sampleState 0 sampleWorld sampleData401 "GET" "/x" []).requests.map
        DataRequest.bhRestToken = ["bh1", "bh2"] := by
  obtain ⟨s2, hs2, hurl, htok⟩ := retry_url_stale_base sampleState 0 sampleWorld sampleData401
    "GET" "/x" [] ⟨"bh1", "https://r1/", 1000⟩ rfl (by decide) rfl rfl
  have hs2v : s2 = ⟨"bh2", "https://r2/", 600⟩ := by
    have : (refreshSession sampleState 0 sampleWorld).state.session?
        = some (⟨"bh2", "https://r2/", 600⟩ : BullhornSession) := by rfl
    rw [this] at hs2
    exact (Option.some.injEq _ _ ▸ hs2).symm
  subst hs2v
  exact ⟨hs2, hurl, htok⟩

/-- Counterexample for C3: on a redirect whose query string carries both a
`code` and an `error` parameter, `_get_auth_code` returns the code (also
recording the regional origin) and never raises the OAuth-error failure — the
code wins, not the error. -/
theorem authCode_error_precedence_cex :
    (getAuthCode bothNet).1 = .gotCode "abc" (some "https://auth.bullhornstaffing.com")
    ∧ ∀ e d, (getAuthCode bothNet).1 ≠ .oauthError e d := by
  have h : (getAuthCode bothNet).1
      = .gotCode "abc" (some "https://auth.bullhornstaffing.com") := by decide
  refine ⟨h, ?_⟩
  intro e d hcon
  rw [h] at hcon
  exact AuthCodeOutcome.noConfusion hcon

/-- **C3 (amended)** Code precedence on the code-carrying redirect: at any
hop with budget left, a redirect whose location carries a `code` parameter
returns that code (with the regional update) even when an `error` parameter
is also present, and never the OAuth-error failure; the OAuth-error failure
with error code and description arises exactly when `error` is present
without `code`. -/
theorem authCode_code_wins (net : Nat → AuthorizeResp) (fuel i : Nat) (p : ParsedUrl)
    (hred : isRedirect (net i).status = true) (hloc : (net i).location = some p) :
    (qpHas p.query "code" = true →
      authCodeGo net (fuel + 1) i
        = (.gotCode (qpFirst p.query "code" "") (regionalUpdate p), i + 1)
      ∧ ∀ e d n, authCodeGo net (fuel + 1) i ≠ (.oauthError e d, n))
    ∧ (qpHas p.query "code" = false → qpHas p.query "error" = true →
      authCodeGo net (fuel + 1) i
        = (.oauthError (qpFirst p.query "error" "unknown")
            (qpFirst p.query "error_description" ""), i + 1)) := by
  constructor
  · intro hc
    have h := authCodeGo_code_first net fuel i p hred hloc hc
    refine ⟨h, ?_⟩
    intro e d n hcon
    rw [h] at hcon
    simp at hcon
  · exact authCodeGo_error_nocode net fuel i p hred hloc

/-- Witness for C3 (amended) at the code-and-error redirect script. -/
theorem authCode_code_wins_witness :
    authCodeGo bothNet 5 0 = (.gotCode "abc" (some "https://auth.bullhornstaffing.com"), 1) := by
  have h := ((authCode_code_wins bothNet 4 0
    ⟨"https", "auth.bullhornstaffing.com",
      [("code", "abc"), ("error", "access_denied"), ("error_description", "denied")]⟩
    (by decide) rfl).1 (by decide)).1
  simpa using h

/-- **C4** Regional Endpoint Override capture: the override is unset at
construction; after a full-auth run it is rewritten only when the
authorization-code retrieval returned a `some` regional update, and is kept
unchanged otherwise (so it is set at most once per redirect chain and never
cleared); a `gotCode` outcome's update always stems from the code-carrying
redirect's parsed location; a non-vendor host never produces an update, and
any produced update is the scheme-and-host origin of a vendor host; a
code-carrying redirect to `auth-apac.bullhornstaffing.com` sets the override
to that origin, while one to an external callback host produces no update. -/
theorem regional_override_capture (net : Nat → AuthorizeResp) (st : AuthState)
    (now : Int) (w : NetWorld) (fuel i : Nat) :
    initAuthState.regional_auth_url? = none
    ∧ ((fullAuth st now w).state.regional_auth_url?
        = match (getAuthCode w.authorizeNet).1 with
          | .gotCode _ (some o) => some o
          | .gotCode _ none => st.regional_auth_url?
          | .oauthError _ _ => st.regional_auth_url?
          | .failStatus _ => st.regional_auth_url?)
    ∧ (∀ c u n, authCodeGo net fuel i = (.gotCode c u, n) →
        ∃ j p, i ≤ j ∧ (net j).location = some p ∧ qpHas p.query "code" = true
          ∧ u = regionalUpdate p)
    ∧ (∀ p : ParsedUrl, vendorHost p.netloc = false → regionalUpdate p = none)
    ∧ (∀ p o, regionalUpdate p = some o →
        vendorHost p.netloc = true ∧ o = p.scheme ++ "://" ++ p.netloc)
    ∧ (getAuthCode apacNet).1 = .gotCode "abc" (some "https://auth-apac.bullhornstaffing.com")
    ∧ (getAuthCode externalNet).1 = .gotCode "abc" none := by
  refine ⟨rfl, fullAuth_regional st now w, ?_, ?_, ?_, by decide, by decide⟩
  · intro c u n h
    obtain ⟨j, p, hij, hl, hq, -, hu⟩ := authCodeGo_gotCode_src net fuel i c u n h
    exact ⟨j, p, hij, hl, hq, hu⟩
  · intro p hv
    simp [regionalUpdate, hv]
  · intro p o h
    unfold regionalUpdate at h
    split at h
    · rename_i hcond
      simp only [Bool.and_eq_true, ne_eq, decide_eq_true_eq] at hcond
      simp only [Option.some.injEq] at h
      exact ⟨hcond.2, h.symm⟩
    · simp at h

/-- Witness for C4: a full-auth run over the external-callback script leaves
the override unset; over the APAC script it sets the APAC origin. -/
theorem regional_override_capture_witness :
    (fullAuth initAuthState 0 { sampleWorld with authorizeNet := externalNet }).state.regional_auth_url?
      = none
    ∧ (fullAuth initAuthState 0 { sampleWorld with authorizeNet := apacNet }).state.regional_auth_url?
      = some "https://auth-apac.bullhornstaffing.com" := by
  have h1 := (regional_override_capture externalNet initAuthState 0
    { sampleWorld with authorizeNet := externalNet } 5 0).2.1
  have h2 := (regional_override_capture apacNet initAuthState 0
    { sampleWorld with authorizeNet := apacNet } 5 0).2.1
  constructor
  · rw [h1]; rfl
  · rw [h2]; rfl

/-- Counterexample for C7: an error-carrying redirect is a terminal state in
which no code was captured, yet the failure raised is the OAuth-error one
(carrying error code and description), not the `AuthenticationError` naming
the last-seen status code. -/
theorem authCode_terminal_error_cex :
    getAuthCode errorNet = (.oauthError "access_denied" "denied", 1)
    ∧ ∀ s, (getAuthCode errorNet).1 ≠ .failStatus s := by
  have h : getAuthCode errorNet = (.oauthError "access_denied" "denied", 1) := by decide
  refine ⟨h, ?_⟩
  intro s hcon
  have h1 : (getAuthCode errorNet).1 = .oauthError "access_denied" "denied" := by rw [h]
  rw [h1] at hcon
  exact AuthCodeOutcome.noConfusion hcon

/-- **C7 (amended)** Bounded redirect following: `_get_auth_code` always
issues between 1 and 5 GET requests, whatever the response stream (so it
terminates against an endless redirect chain); a redirect to a non-vendor
host carrying neither code nor error halts the loop at once as a failure
naming that redirect's status; and every terminal state in which no code was
captured and no error parameter was seen fails naming the status code of the
last response received (an error-carrying redirect instead fails with the
error code and description, per the C3/C7 counterexamples). -/
theorem authCode_bounded_redirects (net : Nat → AuthorizeResp) (fuel i : Nat) (p : ParsedUrl) :
    (1 ≤ (getAuthCode net).2 ∧ (getAuthCode net).2 ≤ 5)
    ∧ (isRedirect (net i).status = true → (net i).location = some p →
        qpHas p.query "code" = false → qpHas p.query "error" = false →
        vendorHost p.netloc = false →
        authCodeGo net (fuel + 1) i = (.failStatus (net i).status, i + 1))
    ∧ (∀ s n, getAuthCode net = (.failStatus s, n) → 1 ≤ n ∧ s = (net (n - 1)).status) := by
  refine ⟨⟨?_, ?_⟩, ?_, ?_⟩
  · have h := authCodeGo_count_lb net 5 0
    simpa [getAuthCode] using h
  · have h := authCodeGo_count_le net 5 0
    simpa [getAuthCode] using h
  · exact authCodeGo_halt_nonvendor net fuel i p
  · intro s n h
    simp only [getAuthCode] at h
    obtain ⟨h1, -⟩ := authCodeGo_failStatus_last net 5 0 s n h
    have hn := authCodeGo_count_lb net 5 0
    rw [h] at hn
    simp at hn
    exact ⟨by omega, h1⟩

/-- Witness for C7 (amended) at the non-vendor no-code redirect script. -/
theorem authCode_bounded_redirects_witness :
    (getAuthCode externalNoCodeNet).2 ≤ 5
    ∧ authCodeGo externalNoCodeNet 5 0 = (.failStatus 302, 1)
    ∧ (1 ≤ 1 ∧ 302 = (externalNoCodeNet 0).status) := by
  have h := authCode_bounded_redirects externalNoCodeNet 4 0 ⟨"https", "evil.example.com", []⟩
  refine ⟨h.1.2, ?_, ?_⟩
  · have h2 := h.2.1 (by decide) rfl (by decide) (by decide) (by decide)
    simpa using h2
  · exact h.2.2 302 1 (by decide)

end BullhornMCP
